import Mathlib

/-!
Verification of the media-acquisition orchestrator of lib-jitsi-meet
(`src/modules/RTC/RTCUtils.js`), shallowly embedded in Lean 4.

The embedding mirrors the source: `getConstraints` (the constraint builder,
including its ability to throw a `TypeError` and its mutation of the options
record), `setResolutionConstraints`, `setAvailableDevices` (the device
availability tracker), `handleLocalStream` (the stream normalizer),
`obtainDevices` (the sequential per-device acquisition with rollback) and
`obtainAudioAndVideoPermissions` (the caller-facing entry point).  Stateful
and asynchronous behaviour is modelled by explicit state passing and by an
event trace; promise settlement is the first resolve/reject event of the
trace.
-/

/-- A requested media kind, as the strings "audio" / "video" / "screen" /
"desktop" appearing in the source's `um` / `options.devices` lists. -/
inductive Kind
  | audio
  | video
  | screen
  | desktop
deriving DecidableEq

/-- `MediaType` service enum: AUDIO and VIDEO. -/
inductive MediaType
  | audio
  | video
deriving DecidableEq

/-- `VideoType` service enum: CAMERA and DESKTOP. -/
inductive VideoType
  | camera
  | desktop
deriving DecidableEq

/-- An elementary media track of a stream (identified by an id, with the
kind reported by `getAudioTracks` / `getVideoTracks`). -/
structure MediaTrack where
  id : Nat
  kind : MediaType
deriving DecidableEq

/-- A raw media stream handle: the list of its constituent tracks. -/
structure MediaStream where
  tracks : List MediaTrack
deriving DecidableEq

/-- The tracks of `s.getAudioTracks()`. -/
def getAudioTracks (s : MediaStream) : List MediaTrack :=
  s.tracks.filter (fun t => t.kind == MediaType.audio)

/-- The tracks of `s.getVideoTracks()`. -/
def getVideoTracks (s : MediaStream) : List MediaTrack :=
  s.tracks.filter (fun t => t.kind == MediaType.video)

/-- The process-wide `devices` record of RTCUtils.js: last-known availability
of audio and video capture. -/
structure Availability where
  audio : Bool
  video : Bool
deriving DecidableEq

/-- The `RTCBrowserType` capability flags (plus the `window.screen`
dimensions and the Temasys screen-sharing key) consulted by RTCUtils.js.
These are environment facts, fixed for a run. -/
structure Browser where
  isAndroid : Bool := false
  isReactNative : Bool := false
  isFirefox : Bool := false
  isChrome : Bool := false
  isOpera : Bool := false
  isNWJS : Bool := false
  isTemasysPluginUsed : Bool := false
  screenWidth : Nat := 1920
  screenHeight : Nat := 1080
  screensharingKey : String := ""
deriving DecidableEq

/-- The `options` record flowing through `obtainAudioAndVideoPermissions`,
`getUserMediaWithConstraints` and `getConstraints`.  Numeric fields use `0`
for the JavaScript-falsy absent value, string device ids use `""`. -/
structure Options where
  devices : Option (List Kind) := none
  resolution : Option String := none
  bandwidth : Nat := 0
  fps : Nat := 0
  minFps : Nat := 0
  maxFps : Nat := 0
  desktopStream : Option String := none
  cameraDeviceId : String := ""
  micDeviceId : String := ""
  firefox_fake_device : Bool := false
deriving DecidableEq

/-- One entry of an `optional` constraint array. -/
inductive OptEntry
  | sourceId (v : String)
  | googLeakyBucket
  | bandwidth (n : Nat)
  | googEchoCancellation
  | googAutoGainControl
  | googNoiseSupression
  | googHighpassFilter
  | googNoisesuppression2
  | googEchoCancellation2
  | googAutoGainControl2
deriving DecidableEq

/-- The `mandatory` sub-object of a video constraint. `none` encodes an
absent key. -/
structure MandatoryConstraints where
  minWidth : Option Nat := none
  maxWidth : Option Nat := none
  minHeight : Option Nat := none
  maxHeight : Option Nat := none
  minFrameRate : Option Nat := none
  maxFrameRate : Option Nat := none
  chromeMediaSource : Option String := none
  chromeMediaSourceId : Option String := none
  googLeakyBucket : Option Bool := none
deriving DecidableEq

/-- A video constraint object.  The source produces several shapes: the
camera shape has `mandatory` and `optional`; the Firefox screen shape has
only `mozMediaSource`/`mediaSource`; the Temasys screen shape has only
`optional`.  Absent keys are `none`. -/
structure VideoConstraint where
  mandatory : Option MandatoryConstraints := none
  optional : Option (List OptEntry) := none
  deviceId : Option String := none
  mozMediaSource : Option String := none
  mediaSource : Option String := none
deriving DecidableEq

/-- An audio constraint: either the booleans `true`/`false` or an object
with an optional `deviceId` and an `optional` array. -/
inductive AudioConstraint
  | abool (b : Bool)
  | aobj (deviceId : Option String) (optional : List OptEntry)
deriving DecidableEq

/-- The full constraint descriptor `{audio, video, fake}` returned by
`getConstraints`.  `video = none` encodes `video: false`. -/
structure Constraints where
  audio : AudioConstraint
  video : Option VideoConstraint
  fake : Bool := false
deriving DecidableEq

/-- A thrown JavaScript exception (the builder can only throw a
`TypeError`, by dereferencing an absent `optional`/`mandatory` key). -/
inductive JsError
  | typeError
deriving DecidableEq

/-- A resolution entry of the `Resolutions` table: width and height. -/
structure ResolutionSpec where
  width : Nat
  height : Nat
deriving DecidableEq

/-- Modelled from the spec: the `Resolutions` table
(`service/RTC/Resolutions`) is not under `src/`; the spec says known
resolution labels such as "360" and "720" map to fixed width/height
pairs.  Unknown labels are absent from the table. -/
def Resolutions : String → Option ResolutionSpec
  | "1080" => some ⟨1920, 1080⟩
  | "fullhd" => some ⟨1920, 1080⟩
  | "720" => some ⟨1280, 720⟩
  | "hd" => some ⟨1280, 720⟩
  | "960" => some ⟨960, 720⟩
  | "360" => some ⟨640, 360⟩
  | "640" => some ⟨640, 480⟩
  | "vga" => some ⟨640, 480⟩
  | "180" => some ⟨320, 180⟩
  | "320" => some ⟨320, 240⟩
  | _ => none

/-- JavaScript truthiness of a possibly-absent number. -/
def jsTruthyNat : Option Nat → Bool
  | some n => n != 0
  | none => false

/-- `setResolutionConstraints` (RTCUtils.js lines 29-50): writes
min dimensions from the resolution label (or the Android reduced-profile
fallback), then copies every truthy min dimension into the matching max
dimension. -/
def setResolutionConstraints (isAndroid : Bool) (m : MandatoryConstraints)
    (resolution : Option String) : MandatoryConstraints :=
  let m1 :=
    match resolution.bind Resolutions with
    | some r => { m with minWidth := some r.width, minHeight := some r.height }
    | none =>
      if isAndroid then
        { m with minWidth := some 320, minHeight := some 180, maxFrameRate := some 15 }
      else m
  let m2 := if jsTruthyNat m1.minWidth then { m1 with maxWidth := m1.minWidth } else m1
  if jsTruthyNat m2.minHeight then { m2 with maxHeight := m2.minHeight } else m2

/-- The camera-shaped video constraint built by the `um.indexOf('video')`
branch of `getConstraints` (lines 67-83). -/
def camVideo (b : Browser) (o : Options) : VideoConstraint :=
  let base : VideoConstraint := { mandatory := some {}, optional := some [] }
  let v1 :=
    if o.cameraDeviceId != "" then
      { base with deviceId := some o.cameraDeviceId,
                  optional := some [OptEntry.sourceId o.cameraDeviceId] }
    else base
  let v2 := { v1 with optional := some (v1.optional.getD [] ++ [OptEntry.googLeakyBucket]) }
  { v2 with mandatory := some (setResolutionConstraints b.isAndroid {} o.resolution) }

/-- The `um.indexOf('screen')` branch of `getConstraints` (lines 123-154):
reassigns `constraints.video` on Chrome, Temasys and Firefox; on any other
backend it only logs an error and leaves the video constraint untouched. -/
def screenVideo (b : Browser) (v : Option VideoConstraint) : Option VideoConstraint :=
  if b.isChrome then
    some { mandatory := some { chromeMediaSource := some "screen",
                               googLeakyBucket := some true,
                               maxWidth := some b.screenWidth,
                               maxHeight := some b.screenHeight,
                               maxFrameRate := some 3 },
           optional := some [] }
  else if b.isTemasysPluginUsed then
    some { optional := some [OptEntry.sourceId b.screensharingKey] }
  else if b.isFirefox then
    some { mozMediaSource := some "window", mediaSource := some "window" }
  else v

/-- The `um.indexOf('desktop')` branch of `getConstraints` (lines 155-167):
unconditionally reassigns `constraints.video`. -/
def desktopVideo (b : Browser) (o : Options) : VideoConstraint :=
  { mandatory := some { chromeMediaSource := some "desktop",
                        chromeMediaSourceId := o.desktopStream,
                        googLeakyBucket := some true,
                        maxWidth := some b.screenWidth,
                        maxHeight := some b.screenHeight,
                        maxFrameRate := some 3 },
    optional := some [] }

/-- The video constraint after the video/screen/desktop branches of
`getConstraints` have run in source order. -/
def videoForKinds (b : Browser) (um : List Kind) (o : Options) : Option VideoConstraint :=
  let v0 := if um.contains Kind.video then some (camVideo b o) else none
  let v1 := if um.contains Kind.screen then screenVideo b v0 else v0
  if um.contains Kind.desktop then some (desktopVideo b o) else v1

/-- The `um.indexOf('audio')` branch of `getConstraints` (lines 84-122):
React Native gets the boolean `true`; non-Firefox gets an object with the
Google quality hints; Firefox gets an object only when a microphone device
id is supplied. -/
def audioForKinds (b : Browser) (o : Options) : AudioConstraint :=
  if b.isReactNative then AudioConstraint.abool true
  else if !b.isFirefox then
    let devPart : List OptEntry :=
      if o.micDeviceId != "" then [OptEntry.sourceId o.micDeviceId] else []
    AudioConstraint.aobj
      (if o.micDeviceId != "" then some o.micDeviceId else none)
      (devPart ++ [OptEntry.googEchoCancellation, OptEntry.googAutoGainControl,
        OptEntry.googNoiseSupression, OptEntry.googHighpassFilter,
        OptEntry.googNoisesuppression2, OptEntry.googEchoCancellation2,
        OptEntry.googAutoGainControl2])
  else if o.micDeviceId != "" then
    AudioConstraint.aobj (some o.micDeviceId) [OptEntry.sourceId o.micDeviceId]
  else AudioConstraint.abool true

/-- The fresh `{mandatory: {}, optional: []}` object created when the
bandwidth/fps sections find `constraints.video` falsy. -/
def emptyVideoObj : VideoConstraint :=
  { mandatory := some {}, optional := some [] }

/-- The bandwidth section of `getConstraints` (lines 169-175): pushes a
`{bandwidth}` entry onto `constraints.video.optional`, throwing a
`TypeError` when that key is absent (as on the Firefox screen shape). -/
def applyBandwidth (o : Options) (v : Option VideoConstraint) :
    Except JsError (Option VideoConstraint) :=
  if o.bandwidth != 0 then
    let vc := v.getD emptyVideoObj
    match vc.optional with
    | some l => Except.ok (some { vc with optional := some (l ++ [OptEntry.bandwidth o.bandwidth]) })
    | none => Except.error JsError.typeError
  else Except.ok v

/-- Whether the fps section of `getConstraints` runs at all
(`options.minFps || options.maxFps || options.fps`). -/
def fpsRequested (o : Options) : Bool :=
  o.minFps != 0 || o.maxFps != 0 || o.fps != 0

/-- The mutation `options.minFps = options.minFps || options.fps`
performed by the fps section of `getConstraints` (line 185), as a function
from the incoming options record to the record after the call. -/
def updateFpsOptions (o : Options) : Options :=
  if fpsRequested o && (o.minFps != 0 || o.fps != 0) then
    { o with minFps := if o.minFps != 0 then o.minFps else o.fps }
  else o

/-- The fps section of `getConstraints` (lines 177-191): writes
`minFrameRate`/`maxFrameRate` into `constraints.video.mandatory`, throwing
a `TypeError` when that key is absent; also performs the `options.minFps`
mutation.  Returns the video constraint and the mutated options. -/
def applyFps (o : Options) (v : Option VideoConstraint) :
    Except JsError (Option VideoConstraint × Options) :=
  if fpsRequested o then
    let vc := v.getD emptyVideoObj
    let step1 : Except JsError (VideoConstraint × Options) :=
      if o.minFps != 0 || o.fps != 0 then
        let o1 := { o with minFps := if o.minFps != 0 then o.minFps else o.fps }
        match vc.mandatory with
        | some m => Except.ok ({ vc with mandatory := some { m with minFrameRate := some o1.minFps } }, o1)
        | none => Except.error JsError.typeError
      else Except.ok (vc, o)
    match step1 with
    | Except.error e => Except.error e
    | Except.ok (vc1, o1) =>
      if o1.maxFps != 0 then
        match vc1.mandatory with
        | some m => Except.ok (some { vc1 with mandatory := some { m with maxFrameRate := some o1.maxFps } }, o1)
        | none => Except.error JsError.typeError
      else Except.ok (some vc1, o1)
  else Except.ok (v, o)

/-- `getConstraints` (RTCUtils.js lines 64-205): the constraint builder.
Returns the constraint descriptor together with the (possibly mutated)
options record, or the thrown exception. -/
def getConstraints (b : Browser) (um : List Kind) (o : Options) :
    Except JsError (Constraints × Options) :=
  let audio := if um.contains Kind.audio then audioForKinds b o else AudioConstraint.abool false
  let video := videoForKinds b um o
  match applyBandwidth o video with
  | Except.error e => Except.error e
  | Except.ok v1 =>
    match applyFps o v1 with
    | Except.error e => Except.error e
    | Except.ok (v2, o') =>
      Except.ok ({ audio := audio, video := v2,
                   fake := b.isFirefox && o.firefox_fake_device }, o')

/-- Whether a builder call returned normally. -/
def buildOk (r : Except JsError (Constraints × Options)) : Bool :=
  match r with
  | Except.ok _ => true
  | Except.error _ => false

/-- `setAvailableDevices` (RTCUtils.js lines 207-216): updates the
process-wide availability record for the kinds in `um` and emits one
`AVAILABLE_DEVICES_CHANGED` notification carrying the current record.
Returns the new record and the list of emitted notification payloads. -/
def setAvailableDevices (um : List Kind) (available : Bool) (d : Availability) :
    Availability × List Availability :=
  let d1 := if um.contains Kind.video then { d with video := available } else d
  let d2 := if um.contains Kind.audio then { d1 with audio := available } else d1
  (d2, [d2])

/-- The backend cause of a failed capture call (opaque to the orchestrator,
except for the "Unable to get the audio and video tracks." error it raises
itself). -/
inductive Cause
  | backend (code : Nat)
  | unableTracks
deriving DecidableEq

/-- Modelled from the spec: `JitsiTrackErrors.parseError` is not under
`src/`; per the spec it classifies a backend cause into an error that names
the implicated kinds and preserves the underlying cause. -/
structure ParsedError where
  cause : Cause
  deviceList : List Kind
deriving DecidableEq

/-- Modelled from the spec: construction of the classified error from the
underlying cause and the implicated kinds. -/
def parseError (e : Cause) (deviceList : List Kind) : ParsedError :=
  { cause := e, deviceList := deviceList }

/-- A normalized track descriptor as produced by `handleLocalStream`:
stream reference, selected track (absent when the stream has no matching
track), media type, video subtype and optional resolution label. -/
structure TrackDesc where
  stream : MediaStream
  track : Option MediaTrack
  mediaType : MediaType
  videoType : Option VideoType
  resolution : Option String
deriving DecidableEq

/-- The raw result bundle handed to `handleLocalStream`: either a combined
`audioVideo` stream, or per-kind `audio`/`video` streams, plus a desktop
stream under either of two keys. -/
structure StreamsBundle where
  audioVideo : Option MediaStream := none
  audio : Option MediaStream := none
  video : Option MediaStream := none
  desktopStream : Option MediaStream := none
  desktop : Option MediaStream := none
deriving DecidableEq

/-- `handleLocalStream` (RTCUtils.js lines 382-450): the stream normalizer.
Splits a combined stream into fresh audio/video streams when present,
otherwise uses the per-kind streams, and emits the descriptors in the fixed
order desktop, audio, camera. -/
def handleLocalStream (streams : Option StreamsBundle) (resolution : Option String) :
    List TrackDesc :=
  match streams with
  | none => []
  | some st =>
    let audioStream : Option MediaStream :=
      match st.audioVideo with
      | some av =>
        if (getAudioTracks av).isEmpty then none else some ⟨getAudioTracks av⟩
      | none => st.audio
    let videoStream : Option MediaStream :=
      match st.audioVideo with
      | some av =>
        if (getVideoTracks av).isEmpty then none else some ⟨getVideoTracks av⟩
      | none => st.video
    let desktopS : Option MediaStream :=
      match st.desktopStream with
      | some d => some d
      | none => st.desktop
    (match desktopS with
     | some d => [{ stream := d, track := (getVideoTracks d).head?,
                    mediaType := MediaType.video, videoType := some VideoType.desktop,
                    resolution := none }]
     | none => []) ++
    (match audioStream with
     | some a => [{ stream := a, track := (getAudioTracks a).head?,
                    mediaType := MediaType.audio, videoType := none,
                    resolution := none }]
     | none => []) ++
    (match videoStream with
     | some v => [{ stream := v, track := (getVideoTracks v).head?,
                    mediaType := MediaType.video, videoType := some VideoType.camera,
                    resolution := resolution }]
     | none => [])

/-- The reason a promise rejection carries: the plain (unclassified)
desktop-unsupported `Error`, a classified `parseError` result, or an
exception thrown synchronously inside the executor. -/
inductive RejectReason
  | plain (msg : String)
  | parsed (e : ParsedError)
  | thrown (e : JsError)
deriving DecidableEq

/-- An observable event of one acquisition run: a backend `getUserMedia`
call (with the requested kinds and whether it succeeded), a screen-obtainer
call, a stream release, a promise resolution or rejection, or an uncaught
exception that halts the run. -/
inductive AcqEvent
  | gumCall (um : List Kind) (ok : Bool)
  | screenCall
  | release (s : MediaStream)
  | resolveEv (tracks : List TrackDesc)
  | rejectEv (r : RejectReason)
  | crash
deriving DecidableEq

/-- `stopMediaStream` (RTCUtils.js lines 883-900): releasing a stream; in
the trace model its observable effect is the release of that stream. -/
def stopMediaStream (s : MediaStream) : AcqEvent :=
  AcqEvent.release s

/-- The external collaborators of one run: the browser flags, whether
`screenObtainer.isSupported()`, the `getUserMedia` backend behaviour per
requested kind list, and the `screenObtainer.obtainStream` behaviour. -/
structure Env where
  browser : Browser
  screenSupported : Bool
  gum : List Kind → Except Cause MediaStream
  screenStream : Except Cause MediaStream

/-- `getUserMediaWithConstraints` (RTCUtils.js lines 669-724), reduced to
what is observable here: on React Native the constraints are built without
`getConstraints`; otherwise `getConstraints` runs first and a thrown
exception propagates (outer `Except`); then the backend call settles
(inner `Except`). -/
def getUserMediaWithConstraints (env : Env) (um : List Kind) (o : Options) :
    Except JsError (Except Cause MediaStream) :=
  if env.browser.isReactNative then Except.ok (env.gum um)
  else
    match getConstraints env.browser um o with
    | Except.error e => Except.error e
    | Except.ok _ => Except.ok (env.gum um)

/-- The two shapes of per-device capture primitive in the `deviceGUM` map
of `obtainAudioAndVideoPermissions`. -/
inductive DeviceCall
  | gumDev
  | screenDev
deriving DecidableEq

/-- The `deviceGUM` lookup: audio and video map to
`getUserMediaWithConstraints`, desktop maps to
`screenObtainer.obtainStream` only when supported, and anything else is an
absent key. -/
def deviceGUM (env : Env) : Kind → Option DeviceCall
  | Kind.audio => some DeviceCall.gumDev
  | Kind.video => some DeviceCall.gumDev
  | Kind.desktop => if env.screenSupported then some DeviceCall.screenDev else none
  | Kind.screen => none

/-- One `obtainDevices` step for kind `k`: `none` when the run crashes on an
absent `deviceGUM` key or a thrown builder exception, otherwise the emitted
call event and the capture outcome. -/
def obtainStep (env : Env) (o : Options) (k : Kind) :
    Option (AcqEvent × Except Cause MediaStream) :=
  match deviceGUM env k with
  | none => none
  | some DeviceCall.gumDev =>
    match getUserMediaWithConstraints env [k] o with
    | Except.error _ => none
    | Except.ok (Except.ok s) => some (AcqEvent.gumCall [k] true, Except.ok s)
    | Except.ok (Except.error e) => some (AcqEvent.gumCall [k] false, Except.error e)
  | some DeviceCall.screenDev => some (AcqEvent.screenCall, env.screenStream)

/-- JavaScript property assignment on the success map: an existing key is
overwritten in place, a new key is appended. -/
def insertStream (m : List (Kind × MediaStream)) (k : Kind) (s : MediaStream) :
    List (Kind × MediaStream) :=
  if m.any (fun p => p.1 == k) then
    m.map (fun p => if p.1 == k then (k, s) else p)
  else m ++ [(k, s)]

/-- The success map viewed as the `streams` object handed to
`handleLocalStream` when every kind succeeded. -/
def bundleOfStreams (m : List (Kind × MediaStream)) : StreamsBundle :=
  { audioVideo := none
    audio := m.lookup Kind.audio
    video := m.lookup Kind.video
    desktopStream := none
    desktop := m.lookup Kind.desktop }

/-- `obtainDevices` (RTCUtils.js lines 352-373): the sequential per-device
acquisition.  Processes the pending kinds one at a time; on success records
the stream and recurses; on failure releases every stream of the success
map and rejects with the classified error naming the failed kind. -/
def obtainDevices (env : Env) (o : Options) :
    List Kind → List (Kind × MediaStream) → List AcqEvent
  | [], m =>
    [AcqEvent.resolveEv (handleLocalStream (some (bundleOfStreams m)) o.resolution)]
  | k :: rest, m =>
    match obtainStep env o k with
    | none => [AcqEvent.crash]
    | some (ev, Except.ok s) => ev :: obtainDevices env o rest (insertStream m k s)
    | some (ev, Except.error e) =>
      ev :: (m.map (fun p => stopMediaStream p.2) ++
        [AcqEvent.rejectEv (RejectReason.parsed (parseError e [k]))])

/-- `options.resolution || '360'`: the empty string and an absent value
both fall back to the default. -/
def jsOrString (s : Option String) (d : String) : String :=
  match s with
  | some v => if v == "" then d else v
  | none => d

/-- `obtainAudioAndVideoPermissions` (RTCUtils.js lines 738-843): the
caller-facing acquisition entry point, as the full event trace of one
invocation.  Note the desktop-unsupported rejection does not return, so the
body keeps executing after it, exactly as in the source. -/
def obtainAudioAndVideoPermissions (env : Env) (opts0 : Options) : List AcqEvent :=
  let devices0 := opts0.devices.getD [Kind.audio, Kind.video]
  let opts1 := { opts0 with devices := some devices0 }
  let pre :=
    if !env.screenSupported && devices0.contains Kind.desktop then
      [AcqEvent.rejectEv (RejectReason.plain "Desktop sharing is not supported!")]
    else []
  if env.browser.isFirefox || env.browser.isReactNative
      || env.browser.isTemasysPluginUsed then
    pre ++ obtainDevices env opts1 devices0 []
  else
    let hasDesktop := devices0.contains Kind.desktop
    let devices1 := if hasDesktop then devices0.erase Kind.desktop else devices0
    let opts2 := { opts1 with
      devices := some devices1
      resolution := some (jsOrString opts1.resolution "360") }
    pre ++
    (if !devices1.isEmpty then
      match getUserMediaWithConstraints env devices1 opts2 with
      | Except.error e => [AcqEvent.rejectEv (RejectReason.thrown e)]
      | Except.ok (Except.error e) =>
        [AcqEvent.gumCall devices1 false,
         AcqEvent.rejectEv (RejectReason.parsed (parseError e devices1))]
      | Except.ok (Except.ok s) =>
        if (devices1.contains Kind.audio && (getAudioTracks s).isEmpty)
            || (devices1.contains Kind.video && (getVideoTracks s).isEmpty) then
          [AcqEvent.gumCall devices1 true, stopMediaStream s,
           AcqEvent.rejectEv (RejectReason.parsed (parseError Cause.unableTracks devices1))]
        else if hasDesktop then
          match env.screenStream with
          | Except.ok d =>
            [AcqEvent.gumCall devices1 true, AcqEvent.screenCall,
             AcqEvent.resolveEv (handleLocalStream
               (some { audioVideo := some s, desktopStream := some d }) opts2.resolution)]
          | Except.error e =>
            [AcqEvent.gumCall devices1 true, AcqEvent.screenCall, stopMediaStream s,
             AcqEvent.rejectEv (RejectReason.parsed (parseError e devices1))]
        else
          [AcqEvent.gumCall devices1 true,
           AcqEvent.resolveEv (handleLocalStream
             (some { audioVideo := some s }) opts2.resolution)]
     else if hasDesktop then
       match env.screenStream with
       | Except.ok s =>
         [AcqEvent.screenCall,
          AcqEvent.resolveEv (handleLocalStream
            (some { desktopStream := some s }) opts2.resolution)]
       | Except.error e =>
         [AcqEvent.screenCall,
          AcqEvent.rejectEv (RejectReason.parsed (parseError e [Kind.desktop]))]
     else [])

/-- One promise settlement: the tracks of a resolution or the reason of a
rejection. -/
inductive Settle
  | resolved (tracks : List TrackDesc)
  | rejected (r : RejectReason)
deriving DecidableEq

/-- Promise semantics over a trace: the first resolve/reject event wins;
`none` means the promise never settles. -/
def settleOf : List AcqEvent → Option Settle
  | [] => none
  | AcqEvent.resolveEv t :: _ => some (Settle.resolved t)
  | AcqEvent.rejectEv r :: _ => some (Settle.rejected r)
  | _ :: rest => settleOf rest

/-- Whether an event is a backend capture call. -/
def isBackendCall : AcqEvent → Bool
  | AcqEvent.gumCall _ _ => true
  | AcqEvent.screenCall => true
  | _ => false

/-- The backend capture calls of a trace. -/
def backendCalls (l : List AcqEvent) : List AcqEvent :=
  l.filter isBackendCall

/-- The device availability record after a trace: each `getUserMedia`
call updates it through `setAvailableDevices`; desktop/screen-obtainer
calls do not touch it. -/
def finalAvail (d : Availability) : List AcqEvent → Availability
  | [] => d
  | AcqEvent.gumCall um ok :: rest => finalAvail (setAvailableDevices um ok d).1 rest
  | _ :: rest => finalAvail d rest

/-! ### Concrete fixtures used by witnesses and counterexamples -/

/-- A Firefox environment browser record. -/
def firefoxBrowser : Browser := { isFirefox := true }

/-- A Chrome environment browser record. -/
def chromeBrowser : Browser := { isChrome := true }

/-- An NW.js environment browser record (neither Chrome, Temasys nor
Firefox for the purposes of the screen branch). -/
def nwjsBrowser : Browser := { isNWJS := true }

/-- A React Native environment browser record. -/
def reactNativeBrowser : Browser := { isReactNative := true }

/-- A stream holding exactly one audio track. -/
def audioOnlyStream : MediaStream := ⟨[⟨0, MediaType.audio⟩]⟩

/-- A stream holding exactly one video track. -/
def videoOnlyStream : MediaStream := ⟨[⟨1, MediaType.video⟩]⟩

/-- Sequential-strategy environment: Firefox, desktop capture supported,
audio and video captures succeed, the screen obtainer fails. -/
def seqEnv : Env where
  browser := firefoxBrowser
  screenSupported := true
  gum := fun um => if um == [Kind.audio] then Except.ok audioOnlyStream
                   else Except.ok videoOnlyStream
  screenStream := Except.error (Cause.backend 7)

/-- The call event each kind produces in `seqEnv`. -/
def seqEv : Kind → AcqEvent
  | Kind.desktop => AcqEvent.screenCall
  | Kind.screen => AcqEvent.screenCall
  | k => AcqEvent.gumCall [k] true

/-- The stream each kind obtains in `seqEnv`. -/
def seqStream : Kind → MediaStream
  | Kind.audio => audioOnlyStream
  | _ => videoOnlyStream

/-- Chrome environment in which desktop capture is unsupported but audio
capture succeeds. -/
def desktopUnsupportedEnv : Env where
  browser := chromeBrowser
  screenSupported := false
  gum := fun _ => Except.ok audioOnlyStream
  screenStream := Except.error (Cause.backend 1)

/-- Chrome (combined-call) environment where every capture succeeds. -/
def emptyChromeEnv : Env where
  browser := chromeBrowser
  screenSupported := true
  gum := fun _ => Except.ok audioOnlyStream
  screenStream := Except.ok videoOnlyStream

/-- Firefox (per-device) environment where every capture succeeds. -/
def emptyFirefoxEnv : Env where
  browser := firefoxBrowser
  screenSupported := true
  gum := fun _ => Except.ok audioOnlyStream
  screenStream := Except.ok videoOnlyStream

/-- The options record used by the C7 witness. -/
def c7opts : Options := { micDeviceId := "m1", cameraDeviceId := "c1" }

/-- The constraints the builder returns for the C7 witness input. -/
def c7c : Constraints :=
  match getConstraints chromeBrowser [Kind.audio, Kind.video] c7opts with
  | Except.ok (c, _) => c
  | Except.error _ => { audio := AudioConstraint.abool false, video := none }

/-- The options record used by the C10 witness. -/
def c10opts : Options := { cameraDeviceId := "cam", resolution := some "360" }

/-- The bundle used by the C8 witness: a combined audio+video stream plus a
desktop stream. -/
def c8bundle : StreamsBundle :=
  { audioVideo := some ⟨[⟨0, MediaType.audio⟩, ⟨1, MediaType.video⟩]⟩
    desktopStream := some videoOnlyStream }

/-! ### Helper lemmas -/

theorem Resolutions_pos (s : String) (r : ResolutionSpec)
    (h : Resolutions s = some r) : r.width ≠ 0 ∧ r.height ≠ 0 := by
  unfold Resolutions at h
  split at h <;>
    first
      | (injection h with h; subst h; exact ⟨by decide, by decide⟩)
      | cases h

/-! ### C5: resolution constraints -/

/-- Claim C5: a known resolution label yields exact dimensions (max equal
to min); an unrecognized or absent label on the Android reduced-profile
backend yields the conservative 320x180 fallback with the 15 fps cap and
max still equal to min — never an unconstrained descriptor. -/
theorem setResolutionConstraints_exactSize (a : Bool) (m : MandatoryConstraints)
    (res : Option String) :
    (∀ r, res.bind Resolutions = some r →
      (setResolutionConstraints a m res).minWidth = some r.width ∧
      (setResolutionConstraints a m res).minHeight = some r.height ∧
      (setResolutionConstraints a m res).maxWidth = some r.width ∧
      (setResolutionConstraints a m res).maxHeight = some r.height) ∧
    (res.bind Resolutions = none → a = true →
      setResolutionConstraints a m res =
        { m with minWidth := some 320, maxWidth := some 320,
                 minHeight := some 180, maxHeight := some 180,
                 maxFrameRate := some 15 }) := by
  constructor
  · intro r h
    obtain ⟨hw, hh⟩ : r.width ≠ 0 ∧ r.height ≠ 0 := by
      cases res with
      | none => cases h
      | some s => exact Resolutions_pos s r h
    unfold setResolutionConstraints
    rw [h]
    simp [jsTruthyNat, hw, hh]
  · intro h ha
    unfold setResolutionConstraints
    rw [h, ha]
    simp [jsTruthyNat]

/-- Witness for C5 at the label "360": the emitted bounds are exactly
640x360 with max equal to min. -/
theorem setResolutionConstraints_exactSize_witness :
    (setResolutionConstraints false {} (some "360")).minWidth = some 640 ∧
    (setResolutionConstraints false {} (some "360")).minHeight = some 360 ∧
    (setResolutionConstraints false {} (some "360")).maxWidth = some 640 ∧
    (setResolutionConstraints false {} (some "360")).maxHeight = some 360 :=
  (setResolutionConstraints_exactSize false {} (some "360")).1 ⟨640, 360⟩ rfl

/-! ### C6: device availability tracker -/

/-- Counterexample for C6: a failed video attempt performed when video is
already unavailable leaves the snapshot unchanged yet still emits a
notification, so notifications are not delivered "exactly once per flip"
nor only on attempts that change a flag. -/
theorem setAvailableDevices_notification_cex :
    (setAvailableDevices [Kind.video] false { audio := true, video := false }).1 =
      { audio := true, video := false } ∧
    (setAvailableDevices [Kind.video] false { audio := true, video := false }).2 ≠ [] := by
  decide

/-- Claim C6 (amended): after a failed video attempt the snapshot reports
video unavailable, after a later successful one it reports it available
again, and one notification carrying the current snapshot is emitted on
every completed attempt — also on attempts that do not change any flag. -/
theorem setAvailableDevices_amended (um : List Kind) (av : Bool) (d : Availability) :
    (setAvailableDevices um av d).2 = [(setAvailableDevices um av d).1] ∧
    (setAvailableDevices um av d).1.video =
      (if um.contains Kind.video then av else d.video) ∧
    (setAvailableDevices um av d).1.audio =
      (if um.contains Kind.audio then av else d.audio) ∧
    (um.contains Kind.video = true →
      (setAvailableDevices um false d).1.video = false ∧
      ∀ d', (setAvailableDevices um true d').1.video = true) := by
  by_cases hv : Kind.video ∈ um <;> by_cases ha : Kind.audio ∈ um <;>
    simp [setAvailableDevices, hv, ha]

/-! ### Pipeline lemmas for the constraint builder -/

theorem applyBandwidth_zero (o : Options) (v : Option VideoConstraint)
    (h : (o.bandwidth != 0) = false) : applyBandwidth o v = Except.ok v := by
  simp [applyBandwidth, h]

theorem applyBandwidth_push (o : Options) (v : Option VideoConstraint) (l : List OptEntry)
    (hb : (o.bandwidth != 0) = true) (h : (v.getD emptyVideoObj).optional = some l) :
    applyBandwidth o v = Except.ok (some { v.getD emptyVideoObj with
      optional := some (l ++ [OptEntry.bandwidth o.bandwidth]) }) := by
  simp [applyBandwidth, hb, h]

theorem applyBandwidth_err (o : Options) (v : Option VideoConstraint)
    (hb : (o.bandwidth != 0) = true) (h : (v.getD emptyVideoObj).optional = none) :
    applyBandwidth o v = Except.error JsError.typeError := by
  simp [applyBandwidth, hb, h]

theorem applyFps_skip (o : Options) (v : Option VideoConstraint)
    (h : fpsRequested o = false) : applyFps o v = Except.ok (v, o) := by
  simp [applyFps, h]

theorem applyFps_ok (o : Options) (v : Option VideoConstraint) (m : MandatoryConstraints)
    (hreq : fpsRequested o = true) (h : (v.getD emptyVideoObj).mandatory = some m) :
    ∃ vc' o', applyFps o v = Except.ok (some vc', o') ∧
      vc'.deviceId = (v.getD emptyVideoObj).deviceId ∧
      vc'.optional = (v.getD emptyVideoObj).optional ∧
      vc'.mandatory.isSome = true := by
  by_cases h1 : (o.minFps != 0 || o.fps != 0) = true
  · by_cases h2 : (o.maxFps != 0) = true
    · simp only [applyFps, hreq, h1, h2, h, if_true, ite_true, ite_false]
      exact ⟨_, _, rfl, rfl, rfl, rfl⟩
    · simp only [applyFps, hreq, h1, h2, h, if_true, ite_true, ite_false,
        Bool.not_eq_true, if_neg, if_false]
      exact ⟨_, _, rfl, rfl, rfl, rfl⟩
  · have h2 : (o.maxFps != 0) = true := by
      simp only [fpsRequested, Bool.or_eq_true] at hreq
      simp only [Bool.or_eq_true] at h1
      tauto
    simp only [applyFps, hreq, h1, h2, h, if_true, ite_true, ite_false,
      Bool.not_eq_true, if_neg, if_false]
    exact ⟨_, _, rfl, rfl, rfl, rfl⟩

theorem applyFps_err (o : Options) (v : Option VideoConstraint)
    (hreq : fpsRequested o = true) (h : (v.getD emptyVideoObj).mandatory = none) :
    applyFps o v = Except.error JsError.typeError := by
  unfold applyFps
  rw [hreq]
  by_cases h1 : (o.minFps != 0 || o.fps != 0) = true
  · simp [h1, h]
  · have h2 : (o.maxFps != 0) = true := by
      simp only [fpsRequested] at hreq
      simp only [Bool.or_eq_true] at hreq h1
      tauto
    simp [h1, h, h2]

theorem buildOk_of_shape (b : Browser) (um : List Kind) (o : Options)
    (hopt : ((videoForKinds b um o).getD emptyVideoObj).optional.isSome = true)
    (hman : ((videoForKinds b um o).getD emptyVideoObj).mandatory.isSome = true) :
    buildOk (getConstraints b um o) = true := by
  simp only [getConstraints]
  cases hAB : applyBandwidth o (videoForKinds b um o) with
  | error e =>
    by_cases hb : (o.bandwidth != 0) = true
    · obtain ⟨l, hl⟩ := Option.isSome_iff_exists.mp hopt
      rw [applyBandwidth_push o _ l hb hl] at hAB
      cases hAB
    · rw [applyBandwidth_zero o _ (by simpa using hb)] at hAB
      cases hAB
  | ok v1 =>
    have hman1 : (v1.getD emptyVideoObj).mandatory.isSome = true := by
      by_cases hb : (o.bandwidth != 0) = true
      · obtain ⟨l, hl⟩ := Option.isSome_iff_exists.mp hopt
        rw [applyBandwidth_push o _ l hb hl] at hAB
        injection hAB with h'
        rw [← h']
        simpa using hman
      · rw [applyBandwidth_zero o _ (by simpa using hb)] at hAB
        injection hAB with h'
        rw [← h']
        exact hman
    cases hF : applyFps o v1 with
    | error e =>
      exfalso
      by_cases hreq : fpsRequested o = true
      · obtain ⟨m, hm⟩ := Option.isSome_iff_exists.mp hman1
        obtain ⟨vc', o', hfps, -⟩ := applyFps_ok o v1 m hreq hm
        rw [hF] at hfps
        cases hfps
      · rw [applyFps_skip o v1 (by simpa using hreq)] at hF
        cases hF
    | ok p =>
      simp [buildOk, hAB, hF]

theorem buildOk_of_opt_noFps (b : Browser) (um : List Kind) (o : Options)
    (hopt : ((videoForKinds b um o).getD emptyVideoObj).optional.isSome = true)
    (hreq : fpsRequested o = false) :
    buildOk (getConstraints b um o) = true := by
  simp only [getConstraints]
  cases hAB : applyBandwidth o (videoForKinds b um o) with
  | error e =>
    by_cases hb : (o.bandwidth != 0) = true
    · obtain ⟨l, hl⟩ := Option.isSome_iff_exists.mp hopt
      rw [applyBandwidth_push o _ l hb hl] at hAB
      cases hAB
    · rw [applyBandwidth_zero o _ (by simpa using hb)] at hAB
      cases hAB
  | ok v1 =>
    simp [buildOk, hAB, applyFps_skip o v1 hreq]

theorem buildOk_of_noOverrides (b : Browser) (um : List Kind) (o : Options)
    (hb : (o.bandwidth != 0) = false) (hreq : fpsRequested o = false) :
    buildOk (getConstraints b um o) = true := by
  simp only [getConstraints]
  cases hAB : applyBandwidth o (videoForKinds b um o) with
  | error e =>
    rw [applyBandwidth_zero o _ hb] at hAB
    cases hAB
  | ok v1 =>
    simp [buildOk, hAB, applyFps_skip o v1 hreq]

theorem buildErr_of_noMan_fps (b : Browser) (um : List Kind) (o : Options)
    (hman : ((videoForKinds b um o).getD emptyVideoObj).mandatory = none)
    (hreq : fpsRequested o = true) :
    buildOk (getConstraints b um o) = false := by
  simp only [getConstraints]
  cases hAB : applyBandwidth o (videoForKinds b um o) with
  | error e => simp [buildOk, hAB]
  | ok v1 =>
    have hman1 : (v1.getD emptyVideoObj).mandatory = none := by
      by_cases hb : (o.bandwidth != 0) = true
      · cases hopt : ((videoForKinds b um o).getD emptyVideoObj).optional with
        | none =>
          rw [applyBandwidth_err o _ hb hopt] at hAB
          cases hAB
        | some l =>
          rw [applyBandwidth_push o _ l hb hopt] at hAB
          injection hAB with h'
          rw [← h']
          simpa using hman
      · rw [applyBandwidth_zero o _ (by simpa using hb)] at hAB
        injection hAB with h'
        rw [← h']
        exact hman
    simp [buildOk, hAB, applyFps_err o v1 hreq hman1]

theorem buildErr_of_noOpt_bw (b : Browser) (um : List Kind) (o : Options)
    (hopt : ((videoForKinds b um o).getD emptyVideoObj).optional = none)
    (hb : (o.bandwidth != 0) = true) :
    buildOk (getConstraints b um o) = false := by
  simp only [getConstraints]
  cases hAB : applyBandwidth o (videoForKinds b um o) with
  | error e => simp [buildOk, hAB]
  | ok v1 =>
    rw [applyBandwidth_err o _ hb hopt] at hAB
    cases hAB

/-! ### C4: totality of the constraint builder -/

/-- Counterexample for C4: requesting a screen kind on Firefox with a
bandwidth override makes the builder throw a `TypeError` (the Firefox
screen shape has no `optional` array to push onto), so the builder does
not always terminate normally. -/
theorem getConstraints_throws_cex :
    getConstraints firefoxBrowser [Kind.screen] { bandwidth := 512 } =
      Except.error JsError.typeError := by
  rfl

/-- Claim C4 (amended): the builder terminates normally and returns a
descriptor for every kind list and options record, except that it throws a
`TypeError` exactly when a screen kind (without desktop) is requested on
the Firefox branch together with a bandwidth or frame-rate override, or on
the Temasys branch together with a frame-rate override. -/
theorem getConstraints_totality_amended (b : Browser) (um : List Kind) (o : Options) :
    buildOk (getConstraints b um o) =
      !(um.contains Kind.screen && !(um.contains Kind.desktop) && !b.isChrome &&
        ((b.isTemasysPluginUsed && fpsRequested o) ||
         (!b.isTemasysPluginUsed && b.isFirefox &&
           (o.bandwidth != 0 || fpsRequested o)))) := by
  by_cases hd : Kind.desktop ∈ um
  · have hv : videoForKinds b um o = some (desktopVideo b o) := by
      simp [videoForKinds, hd]
    rw [buildOk_of_shape b um o (by rw [hv]; rfl) (by rw [hv]; rfl)]
    simp [hd]
  · by_cases hs : Kind.screen ∈ um
    · cases hc : b.isChrome with
      | true =>
        have hv : videoForKinds b um o =
            screenVideo b (if um.contains Kind.video then some (camVideo b o) else none) := by
          simp [videoForKinds, hd, hs]
        rw [buildOk_of_shape b um o
            (by rw [hv]; simp [screenVideo, hc])
            (by rw [hv]; simp [screenVideo, hc])]
        simp [hd, hs, hc]
      | false =>
        cases ht : b.isTemasysPluginUsed with
        | true =>
          have hv : videoForKinds b um o =
              some { optional := some [OptEntry.sourceId b.screensharingKey] } := by
            simp [videoForKinds, hd, hs, screenVideo, hc, ht]
          cases hreq : fpsRequested o with
          | false =>
            rw [buildOk_of_opt_noFps b um o (by rw [hv]; rfl) hreq]
            simp [hd, hs, hc, ht, hreq]
          | true =>
            rw [buildErr_of_noMan_fps b um o (by rw [hv]; rfl) hreq]
            simp [hd, hs, hc, ht, hreq]
        | false =>
          cases hf : b.isFirefox with
          | true =>
            have hv : videoForKinds b um o =
                some { mozMediaSource := some "window", mediaSource := some "window" } := by
              simp [videoForKinds, hd, hs, screenVideo, hc, ht, hf]
            cases hb : (o.bandwidth != 0) with
            | true =>
              rw [buildErr_of_noOpt_bw b um o (by rw [hv]; rfl) hb]
              simp [hd, hs, hc, ht, hf, hb]
            | false =>
              cases hreq : fpsRequested o with
              | true =>
                rw [buildErr_of_noMan_fps b um o (by rw [hv]; rfl) hreq]
                simp [hd, hs, hc, ht, hf, hb, hreq]
              | false =>
                rw [buildOk_of_noOverrides b um o hb hreq]
                simp [hd, hs, hc, ht, hf, hb, hreq]
          | false =>
            have hshape : ((videoForKinds b um o).getD emptyVideoObj).optional.isSome = true ∧
                ((videoForKinds b um o).getD emptyVideoObj).mandatory.isSome = true := by
              by_cases hvid : Kind.video ∈ um <;>
                simp [videoForKinds, hd, hs, hvid, screenVideo, hc, ht, hf,
                  camVideo, emptyVideoObj]
            rw [buildOk_of_shape b um o hshape.1 hshape.2]
            simp [hd, hs, hc, ht, hf]
    · have hshape : ((videoForKinds b um o).getD emptyVideoObj).optional.isSome = true ∧
          ((videoForKinds b um o).getD emptyVideoObj).mandatory.isSome = true := by
        by_cases hvid : Kind.video ∈ um <;>
          simp [videoForKinds, hd, hs, hvid, camVideo, emptyVideoObj]
      rw [buildOk_of_shape b um o hshape.1 hshape.2]
      simp [hd, hs]


/-! ### Result extraction lemmas for the builder -/

theorem getConstraints_audio (b : Browser) (um : List Kind) (o : Options)
    (c : Constraints) (o' : Options) (h : getConstraints b um o = Except.ok (c, o')) :
    c.audio = (if um.contains Kind.audio then audioForKinds b o
               else AudioConstraint.abool false) := by
  simp only [getConstraints] at h
  cases hAB : applyBandwidth o (videoForKinds b um o) with
  | error e =>
    simp only [hAB] at h
    cases h
  | ok v1 =>
    simp only [hAB] at h
    cases hF : applyFps o v1 with
    | error e =>
      simp only [hF] at h
      cases h
    | ok p =>
      simp only [hF] at h
      rw [Except.ok.injEq, Prod.mk.injEq] at h
      rw [← h.1]

theorem getConstraints_noOverrides (b : Browser) (um : List Kind) (o : Options)
    (hb : (o.bandwidth != 0) = false) (hreq : fpsRequested o = false) :
    getConstraints b um o = Except.ok
      ({ audio := (if um.contains Kind.audio then audioForKinds b o
                   else AudioConstraint.abool false),
         video := videoForKinds b um o,
         fake := b.isFirefox && o.firefox_fake_device }, o) := by
  simp only [getConstraints]
  simp only [applyBandwidth_zero o _ hb]
  simp only [applyFps_skip o (videoForKinds b um o) hreq]

theorem getConstraints_video_of_cam (b : Browser) (um : List Kind) (o : Options)
    (c : Constraints) (o' : Options) (h : getConstraints b um o = Except.ok (c, o'))
    (hvid : Kind.video ∈ um) (hs : Kind.screen ∉ um)
    (hd : Kind.desktop ∉ um) :
    ∃ vc, c.video = some vc ∧
      vc.deviceId = (camVideo b o).deviceId ∧
      ∃ l0 l, (camVideo b o).optional = some l0 ∧ vc.optional = some l ∧
        ∀ x ∈ l0, x ∈ l := by
  have hv : videoForKinds b um o = some (camVideo b o) := by
    simp [videoForKinds, hvid, hs, hd]
  simp only [getConstraints, hv] at h
  obtain ⟨l0, hl0⟩ : ∃ l0, (camVideo b o).optional = some l0 := ⟨_, rfl⟩
  cases hAB : applyBandwidth o (some (camVideo b o)) with
  | error e =>
    simp only [hAB] at h
    cases h
  | ok v1 =>
    simp only [hAB] at h
    have hv1 : ∃ vc1, v1 = some vc1 ∧ vc1.deviceId = (camVideo b o).deviceId ∧
        vc1.mandatory = (camVideo b o).mandatory ∧
        ∃ l1, vc1.optional = some l1 ∧ ∀ x ∈ l0, x ∈ l1 := by
      by_cases hb : (o.bandwidth != 0) = true
      · rw [applyBandwidth_push o _ l0 hb (by simpa using hl0)] at hAB
        injection hAB with h'
        refine ⟨_, h'.symm, rfl, rfl, _, rfl, ?_⟩
        intro x hx
        exact List.mem_append_left _ hx
      · rw [applyBandwidth_zero o _ (by simpa using hb)] at hAB
        injection hAB with h'
        exact ⟨camVideo b o, h'.symm, rfl, rfl, l0, hl0, fun x hx => hx⟩
    obtain ⟨vc1, rfl, hdev1, hman1, l1, hopt1, hsub1⟩ := hv1
    cases hF : applyFps o (some vc1) with
    | error e =>
      simp only [hF] at h
      cases h
    | ok p =>
      simp only [hF] at h
      rw [Except.ok.injEq, Prod.mk.injEq] at h
      have hman1s : ∃ m, vc1.mandatory = some m := by
        rw [hman1]
        exact ⟨_, rfl⟩
      by_cases hreq : fpsRequested o = true
      · obtain ⟨m, hm⟩ := hman1s
        obtain ⟨vc', o2, hfps, hdev2, hopt2, -⟩ :=
          applyFps_ok o (some vc1) m hreq (by simpa using hm)
        rw [hF] at hfps
        rw [Except.ok.injEq] at hfps
        refine ⟨vc', ?_, ?_, l0, l1, hl0, ?_, hsub1⟩
        · rw [← h.1, hfps]
        · rw [hdev2, Option.getD_some, hdev1]
        · rw [hopt2, Option.getD_some, hopt1]
      · rw [applyFps_skip o _ (by simpa using hreq)] at hF
        injection hF with h'
        refine ⟨vc1, ?_, hdev1, l0, l1, hl0, hopt1, hsub1⟩
        rw [← h.1, ← h']


/-! ### C7: device identifiers in both redundant forms -/

/-- Counterexample for C7: on the React Native backend path the audio
branch emits the boolean `true`, dropping the supplied microphone
identifier entirely, so the descriptor does not carry the identifier in
both redundant forms on every backend path. -/
theorem deviceId_reactNative_cex :
    (getConstraints reactNativeBrowser [Kind.audio] { micDeviceId := "m1" }).map
      (fun r => r.1.audio) = Except.ok (AudioConstraint.abool true) := rfl

theorem camVideo_withId (b : Browser) (o : Options)
    (hc : (o.cameraDeviceId != "") = true) :
    (camVideo b o).deviceId = some o.cameraDeviceId ∧
    (camVideo b o).optional =
      some [OptEntry.sourceId o.cameraDeviceId, OptEntry.googLeakyBucket] := by
  constructor <;> simp [camVideo, hc]

/-- Claim C7 (amended): whenever the builder returns normally, a supplied
microphone identifier is attached both as the strict `deviceId` field and
as a legacy `sourceId` optional entry — except on the React Native audio
path, which drops it; a supplied camera identifier is attached in both
forms provided no screen/desktop kind overwrites the video constraint. -/
theorem deviceId_bothForms_amended (b : Browser) (um : List Kind) (o : Options)
    (c : Constraints) (o' : Options) (h : getConstraints b um o = Except.ok (c, o')) :
    (um.contains Kind.audio = true → b.isReactNative = false → o.micDeviceId ≠ "" →
      ∃ l, c.audio = AudioConstraint.aobj (some o.micDeviceId) l ∧
        OptEntry.sourceId o.micDeviceId ∈ l) ∧
    (Kind.video ∈ um → Kind.screen ∉ um → Kind.desktop ∉ um → o.cameraDeviceId ≠ "" →
      ∃ vc l, c.video = some vc ∧ vc.deviceId = some o.cameraDeviceId ∧
        vc.optional = some l ∧ OptEntry.sourceId o.cameraDeviceId ∈ l) := by
  constructor
  · intro ha hrn hm
    have hm' : (o.micDeviceId != "") = true := by simpa using hm
    rw [getConstraints_audio b um o c o' h, if_pos ha]
    unfold audioForKinds
    rw [hrn]
    cases hf : b.isFirefox with
    | true =>
      simp only [Bool.not_true, if_neg, ite_true, ite_false, Bool.false_eq_true, hm']
      exact ⟨[OptEntry.sourceId o.micDeviceId], rfl, by simp⟩
    | false =>
      simp only [Bool.not_false, ite_true, hm']
      exact ⟨_, rfl, by simp⟩
  · intro hvid hs hd hc
    have hc' : (o.cameraDeviceId != "") = true := by simpa using hc
    obtain ⟨vc, hcv, hdev, l0, l, hl0, hl, hsub⟩ :=
      getConstraints_video_of_cam b um o c o' h hvid hs hd
    refine ⟨vc, l, hcv, ?_, hl, ?_⟩
    · rw [hdev, (camVideo_withId b o hc').1]
    · apply hsub
      rw [(camVideo_withId b o hc').2] at hl0
      injection hl0 with hl0
      rw [← hl0]
      simp

/-- Witness for C7: on Chrome with both identifiers supplied, both emitted
constraints carry the strict field and the legacy sourceId entry. -/
theorem deviceId_bothForms_amended_witness :
    (∃ l, c7c.audio = AudioConstraint.aobj (some "m1") l ∧
      OptEntry.sourceId "m1" ∈ l) ∧
    (∃ vc l, c7c.video = some vc ∧ vc.deviceId = some "c1" ∧
      vc.optional = some l ∧ OptEntry.sourceId "c1" ∈ l) :=
  ⟨(deviceId_bothForms_amended chromeBrowser [Kind.audio, Kind.video] c7opts c7c c7opts
      rfl).1 rfl rfl (by decide),
   (deviceId_bothForms_amended chromeBrowser [Kind.audio, Kind.video] c7opts c7c c7opts
      rfl).2 (by decide) (by decide) (by decide) (by decide)⟩


/-! ### C9: purity and idempotence of the builder -/

theorem updateFps_shape (o : Options) :
    ∃ mf, updateFpsOptions o = { o with minFps := mf } := by
  unfold updateFpsOptions
  split
  · exact ⟨_, rfl⟩
  · exact ⟨o.minFps, rfl⟩

theorem updateFps_cond_true (o : Options) (hreq : fpsRequested o = true)
    (h1 : (o.minFps != 0 || o.fps != 0) = true) :
    updateFpsOptions o = { o with minFps := if o.minFps != 0 then o.minFps else o.fps } := by
  have hcond : (fpsRequested o && (o.minFps != 0 || o.fps != 0)) = true := by
    rw [hreq, h1]
    rfl
  simp [updateFpsOptions, hcond]

theorem updateFps_cond_false (o : Options) (h1 : (o.minFps != 0 || o.fps != 0) = false) :
    updateFpsOptions o = o := by
  have hcond : (fpsRequested o && (o.minFps != 0 || o.fps != 0)) = false := by
    rw [h1]
    simp
  simp [updateFpsOptions, hcond]

theorem minFpsOr_ne_zero (o : Options) (h1 : (o.minFps != 0 || o.fps != 0) = true) :
    ((if o.minFps != 0 then o.minFps else o.fps) != 0) = true := by
  cases hmm : (o.minFps != 0) with
  | true => simp [hmm]
  | false =>
    have hf : (o.fps != 0) = true := by
      rcases Bool.or_eq_true_iff.mp h1 with h | h
      · rw [hmm] at h
        cases h
      · exact h
    simp [hmm, hf]

theorem applyFps_update (o : Options) (v : Option VideoConstraint) :
    applyFps (updateFpsOptions o) v = applyFps o v := by
  cases hA : (o.minFps != 0) with
  | true =>
    have hu : updateFpsOptions o = o := by
      unfold updateFpsOptions
      split
      · simp [hA]
      · rfl
    rw [hu]
  | false =>
    cases hB : (o.fps != 0) with
    | false =>
      have h1 : (o.minFps != 0 || o.fps != 0) = false := by
        rw [hA, hB]
        rfl
      rw [updateFps_cond_false o h1]
    | true =>
      have h1 : (o.minFps != 0 || o.fps != 0) = true := by
        rw [hA, hB]
        rfl
      have hreq : fpsRequested o = true := by
        unfold fpsRequested
        rw [hB]
        simp
      have hu : updateFpsOptions o = { o with minFps := o.fps } := by
        rw [updateFps_cond_true o hreq h1,
          if_neg (show ¬((o.minFps != 0) = true) by simp [hA])]
      rw [hu]
      cases hvm : (v.getD emptyVideoObj).mandatory with
      | none => simp [applyFps, fpsRequested, hA, hB, hvm]
      | some m => simp [applyFps, fpsRequested, hA, hB, hvm]

theorem applyFps_snd (o : Options) (v : Option VideoConstraint)
    (p : Option VideoConstraint × Options) (h : applyFps o v = Except.ok p) :
    p.2 = updateFpsOptions o := by
  by_cases hreq : fpsRequested o = true
  · cases hvm : (v.getD emptyVideoObj).mandatory with
    | none =>
      rw [applyFps_err o v hreq hvm] at h
      cases h
    | some m =>
      by_cases h1 : (o.minFps != 0 || o.fps != 0) = true
      · rw [updateFps_cond_true o hreq h1]
        simp only [applyFps, hreq, h1, hvm, if_true, ite_true] at h
        by_cases h2 : (o.maxFps != 0) = true <;>
          · simp only [h2, ite_true, ite_false, Bool.false_eq_true, if_false,
              if_true, Except.ok.injEq] at h
            rw [← h]
      · have hu := updateFps_cond_false o (by simpa using h1)
        rw [hu]
        have h2 : (o.maxFps != 0) = true := by
          unfold fpsRequested at hreq
          simp only [Bool.or_eq_true] at hreq h1 ⊢
          tauto
        simp only [applyFps, hreq, h1, hvm, h2, if_true, ite_true, ite_false,
          Bool.false_eq_true, if_false, Except.ok.injEq] at h
        rw [← h]
  · rw [applyFps_skip o v (by simpa using hreq)] at h
    injection h with h'
    have h1f : (o.minFps != 0 || o.fps != 0) = false := by
      have hreq' : fpsRequested o = false := by simpa using hreq
      unfold fpsRequested at hreq'
      cases hx : (o.minFps != 0) <;> cases hy : (o.fps != 0) <;> simp_all
    rw [← h', updateFps_cond_false o h1f]

theorem getConstraints_update (b : Browser) (um : List Kind) (o : Options) :
    getConstraints b um (updateFpsOptions o) = getConstraints b um o := by
  obtain ⟨mf, hmf⟩ := updateFps_shape o
  have hb : ∀ v, applyBandwidth (updateFpsOptions o) v = applyBandwidth o v := by
    rw [hmf]
    intro v
    rfl
  have hvf : videoForKinds b um (updateFpsOptions o) = videoForKinds b um o := by
    rw [hmf]
    rfl
  have haf : audioForKinds b (updateFpsOptions o) = audioForKinds b o := by
    rw [hmf]
    rfl
  have hffd : (updateFpsOptions o).firefox_fake_device = o.firefox_fake_device := by
    rw [hmf]
  simp only [getConstraints, hb, hvf, haf, hffd, applyFps_update]

theorem getConstraints_snd (b : Browser) (um : List Kind) (o : Options)
    (c : Constraints) (o' : Options) (h : getConstraints b um o = Except.ok (c, o')) :
    o' = updateFpsOptions o := by
  simp only [getConstraints] at h
  cases hAB : applyBandwidth o (videoForKinds b um o) with
  | error e =>
    simp only [hAB] at h
    cases h
  | ok v1 =>
    simp only [hAB] at h
    cases hF : applyFps o v1 with
    | error e =>
      simp only [hF] at h
      cases h
    | ok p =>
      simp only [hF] at h
      rw [Except.ok.injEq, Prod.mk.injEq] at h
      rw [← h.2]
      exact applyFps_snd o v1 p hF

/-- Counterexample for C9: the builder mutates its options record — with
`fps = 30` and no `minFps`, the returned (post-call) options record has
`minFps = 30` and so differs from the input, refuting "no side effects, in
particular it does not mutate its inputs". -/
theorem getConstraints_mutates_options_cex :
    (getConstraints chromeBrowser [] { fps := 30 }).map (fun r => r.2.minFps) =
      Except.ok 30 ∧
    ({ fps := 30 } : Options).minFps = 0 ∧
    (getConstraints chromeBrowser [] { fps := 30 }).map (fun r => r.2) =
      Except.ok ({ fps := 30, minFps := 30 } : Options) :=
  ⟨rfl, rfl, rfl⟩

/-- Claim C9 (amended): the builder is idempotent — re-running it on the
options record it returned yields the same descriptor and the same record —
and it never throws differently on the two runs; but it is not free of side
effects: it mutates its input options record, though only by writing the
legacy `fps` value into `minFps` when `minFps` was absent. -/
theorem getConstraints_idempotent_amended (b : Browser) (um : List Kind) (o : Options)
    (c : Constraints) (o' : Options) (h : getConstraints b um o = Except.ok (c, o')) :
    getConstraints b um o' = Except.ok (c, o') ∧
    o' = { o with minFps := o'.minFps } := by
  have hsnd := getConstraints_snd b um o c o' h
  constructor
  · rw [hsnd, getConstraints_update, h, hsnd]
  · obtain ⟨mf, hmf⟩ := updateFps_shape o
    rw [hsnd, hmf]

/-- Witness for C9: on a concrete run with an fps override, re-running the
builder on the mutated options reproduces the identical descriptor and
options, and only `minFps` was touched. -/
theorem getConstraints_idempotent_amended_witness :
    getConstraints chromeBrowser [] ({ fps := 30, minFps := 30 } : Options) =
      Except.ok ({ audio := AudioConstraint.abool false,
                   video := some { mandatory := some { minFrameRate := some 30 },
                                   optional := some [] },
                   fake := false },
                 ({ fps := 30, minFps := 30 } : Options)) ∧
    ({ fps := 30, minFps := 30 } : Options) =
      { ({ fps := 30 } : Options) with minFps := 30 } :=
  (getConstraints_idempotent_amended chromeBrowser [] { fps := 30 } _ _ rfl)


/-! ### C10: screen/desktop branch overwrites the camera constraint -/

theorem screenVideo_const (b : Browser) (v : Option VideoConstraint)
    (h : (b.isChrome || b.isTemasysPluginUsed || b.isFirefox) = true) :
    screenVideo b v = screenVideo b none := by
  cases hc : b.isChrome with
  | true => simp [screenVideo, hc]
  | false =>
    cases ht : b.isTemasysPluginUsed with
    | true => simp [screenVideo, hc, ht]
    | false =>
      cases hf : b.isFirefox with
      | true => simp [screenVideo, hc, ht, hf]
      | false =>
        rw [hc, ht, hf] at h
        cases h

/-- Counterexample for C10: on a backend that is neither Chrome, Temasys
nor Firefox (NW.js here), the screen branch leaves the video field
untouched, so requesting `[video, screen]` emits the camera-shaped
constraint still carrying the camera device id — the claim that camera
constraints are always discarded fails. -/
theorem screenOverwrite_unknownBackend_cex :
    (getConstraints nwjsBrowser [Kind.video, Kind.screen]
        { cameraDeviceId := "cam" }).map (fun r => (r.1.video.getD {}).deviceId) =
      Except.ok (some "cam") := rfl

/-- Claim C10 (amended): when desktop is requested, the emitted video
constraint is exactly the desktop shape, discarding the camera
constraints; the same holds for screen on the Chrome, Temasys and Firefox
branches — but on any other backend the screen branch leaves the earlier
camera constraint in place.  (Stated for requests without bandwidth or
frame-rate overrides, which would only append to the shape.) -/
theorem screenDesktop_overwrite_amended (b : Browser) (um : List Kind) (o : Options)
    (hb : (o.bandwidth != 0) = false) (hreq : fpsRequested o = false) :
    (Kind.desktop ∈ um →
      (getConstraints b um o).map (fun r => r.1.video) =
        Except.ok (some (desktopVideo b o))) ∧
    (Kind.desktop ∉ um → Kind.screen ∈ um →
      (b.isChrome || b.isTemasysPluginUsed || b.isFirefox) = true →
      (getConstraints b um o).map (fun r => r.1.video) =
        Except.ok (screenVideo b none)) := by
  rw [getConstraints_noOverrides b um o hb hreq]
  constructor
  · intro hd
    have hv : videoForKinds b um o = some (desktopVideo b o) := by
      simp [videoForKinds, hd]
    simp [Except.map, hv]
  · intro hd hs hflag
    have hv : videoForKinds b um o =
        screenVideo b (if um.contains Kind.video then some (camVideo b o) else none) := by
      simp [videoForKinds, hd, hs]
    simp [Except.map, hv, screenVideo_const b _ hflag]

/-- Witness for C10: on Chrome, requesting `[video, desktop]` with a
camera id and a resolution emits exactly the desktop-shaped video
constraint. -/
theorem screenDesktop_overwrite_amended_witness :
    (getConstraints chromeBrowser [Kind.video, Kind.desktop] c10opts).map
      (fun r => r.1.video) = Except.ok (some (desktopVideo chromeBrowser c10opts)) :=
  (screenDesktop_overwrite_amended chromeBrowser [Kind.video, Kind.desktop] c10opts
    rfl rfl).1 (by decide)


/-! ### C8: the stream normalizer -/

theorem getAudioTracks_filtered (av : MediaStream) :
    getAudioTracks ⟨getAudioTracks av⟩ = getAudioTracks av := by
  simp [getAudioTracks, List.filter_filter]

theorem getVideoTracks_filtered (av : MediaStream) :
    getVideoTracks ⟨getVideoTracks av⟩ = getVideoTracks av := by
  simp [getVideoTracks, List.filter_filter]

theorem hls_order (st : StreamsBundle) (r : Option String) :
    List.Sublist
      ((handleLocalStream (some st) r).map (fun t => (t.mediaType, t.videoType)))
      [(MediaType.video, some VideoType.desktop), (MediaType.audio, none),
       (MediaType.video, some VideoType.camera)] := by
  rcases st with ⟨av, a, v, ds, dk⟩
  cases av with
  | some avs =>
    cases hae : (getAudioTracks avs).isEmpty <;>
      cases hve : (getVideoTracks avs).isEmpty <;>
        cases ds <;> cases dk <;>
          simp [handleLocalStream, hae, hve]
  | none =>
    cases a <;> cases v <;> cases ds <;> cases dk <;>
      simp [handleLocalStream]

theorem hls_desktopHead (st : StreamsBundle) (r : Option String) (d : MediaStream)
    (hd : st.desktopStream = some d) :
    (handleLocalStream (some st) r).head? =
      some { stream := d
             track := (getVideoTracks d).head?
             mediaType := MediaType.video
             videoType := some VideoType.desktop
             resolution := none } := by
  rcases st with ⟨av, a, v, ds, dk⟩
  cases hd
  simp [handleLocalStream]

theorem hls_combinedTracks (st : StreamsBundle) (r : Option String) (av : MediaStream)
    (hav : st.audioVideo = some av) :
    ∀ t ∈ handleLocalStream (some st) r,
      (t.mediaType = MediaType.audio → t.track = (getAudioTracks av).head?) ∧
      (t.videoType = some VideoType.camera →
        t.track = (getVideoTracks av).head? ∧ t.resolution = r) := by
  rcases st with ⟨av0, a, v, ds, dk⟩
  cases hav
  cases hae : (getAudioTracks av).isEmpty <;>
    cases hve : (getVideoTracks av).isEmpty <;>
      cases ds <;> cases dk <;>
        simp [handleLocalStream, hae, hve, getAudioTracks_filtered,
          getVideoTracks_filtered]

theorem hls_perKindTracks (st : StreamsBundle) (r : Option String)
    (hav : st.audioVideo = none) :
    ∀ t ∈ handleLocalStream (some st) r,
      (t.mediaType = MediaType.audio →
        st.audio = some t.stream ∧ t.track = (getAudioTracks t.stream).head?) ∧
      (t.videoType = some VideoType.camera →
        st.video = some t.stream ∧ t.track = (getVideoTracks t.stream).head?) := by
  rcases st with ⟨av0, a, v, ds, dk⟩
  cases hav
  cases a <;> cases v <;> cases ds <;> cases dk <;>
    simp [handleLocalStream]

theorem hls_combinedEmpty (st : StreamsBundle) (r : Option String) (av : MediaStream)
    (hav : st.audioVideo = some av) (ha : getAudioTracks av = [])
    (hv : getVideoTracks av = []) (hds : st.desktopStream = none)
    (hdk : st.desktop = none) :
    handleLocalStream (some st) r = [] := by
  rcases st with ⟨av0, a, v, ds, dk⟩
  cases hav
  cases hds
  cases hdk
  simp [handleLocalStream, ha, hv]

/-- Counterexample for C8: a per-kind audio stream that carries no tracks
still yields one descriptor (with an absent track reference), so an input
with no tracks does not always yield an empty sequence. -/
theorem handleLocalStream_tracklessStream_cex :
    handleLocalStream (some { audio := some ⟨[]⟩ }) none =
      [{ stream := ⟨[]⟩
         track := none
         mediaType := MediaType.audio
         videoType := none
         resolution := none }] ∧
    handleLocalStream (some { audio := some ⟨[]⟩ }) none ≠ [] := by
  exact ⟨rfl, by decide⟩

/-- Claim C8 (amended): the normalizer never fails; descriptors come in the
fixed order desktop, audio, camera; the desktop descriptor is always
VIDEO/DESKTOP with no resolution label and heads the output; the first
audio/video tracks of the contributing streams are selected; an absent
bundle or a combined stream with no tracks (and no desktop stream) yields
an empty sequence — but a per-kind stream with no matching tracks still
yields a descriptor whose track reference is absent. -/
theorem handleLocalStream_amended (st : StreamsBundle) (r : Option String) :
    handleLocalStream none r = [] ∧
    List.Sublist
      ((handleLocalStream (some st) r).map (fun t => (t.mediaType, t.videoType)))
      [(MediaType.video, some VideoType.desktop), (MediaType.audio, none),
       (MediaType.video, some VideoType.camera)] ∧
    (∀ d, st.desktopStream = some d →
      (handleLocalStream (some st) r).head? =
        some { stream := d
               track := (getVideoTracks d).head?
               mediaType := MediaType.video
               videoType := some VideoType.desktop
               resolution := none }) ∧
    (∀ av, st.audioVideo = some av → ∀ t ∈ handleLocalStream (some st) r,
      (t.mediaType = MediaType.audio → t.track = (getAudioTracks av).head?) ∧
      (t.videoType = some VideoType.camera →
        t.track = (getVideoTracks av).head? ∧ t.resolution = r)) ∧
    (st.audioVideo = none → ∀ t ∈ handleLocalStream (some st) r,
      (t.mediaType = MediaType.audio →
        st.audio = some t.stream ∧ t.track = (getAudioTracks t.stream).head?) ∧
      (t.videoType = some VideoType.camera →
        st.video = some t.stream ∧ t.track = (getVideoTracks t.stream).head?)) ∧
    (∀ av, st.audioVideo = some av → getAudioTracks av = [] → getVideoTracks av = [] →
      st.desktopStream = none → st.desktop = none →
      handleLocalStream (some st) r = []) :=
  ⟨rfl, hls_order st r, fun d hd => hls_desktopHead st r d hd,
   fun av hav => hls_combinedTracks st r av hav,
   fun hav => hls_perKindTracks st r hav,
   fun av hav ha hv hds hdk => hls_combinedEmpty st r av hav ha hv hds hdk⟩

/-- Witness for C8: with a combined stream and a desktop stream, the first
descriptor is the VIDEO/DESKTOP one with no resolution label. -/
theorem handleLocalStream_amended_witness :
    (handleLocalStream (some c8bundle) (some "360")).head? =
      some { stream := videoOnlyStream
             track := (getVideoTracks videoOnlyStream).head?
             mediaType := MediaType.video
             videoType := some VideoType.desktop
             resolution := none } :=
  (handleLocalStream_amended c8bundle (some "360")).2.2.1 videoOnlyStream rfl


/-! ### C1: sequential acquisition with rollback -/

theorem obtainDevices_rollback_aux (env : Env) (o : Options) (kf : Kind)
    (rest : List Kind) (ev : Kind → AcqEvent) (s : Kind → MediaStream) (e : Cause)
    (hfail : obtainStep env o kf = some (ev kf, Except.error e)) :
    ∀ (ks : List Kind) (m : List (Kind × MediaStream)),
      ks.Nodup →
      (∀ k ∈ ks, m.any (fun p => p.1 == k) = false) →
      (∀ k ∈ ks, obtainStep env o k = some (ev k, Except.ok (s k))) →
      obtainDevices env o (ks ++ kf :: rest) m =
        ks.map ev ++ ev kf ::
          ((m ++ ks.map (fun k => (k, s k))).map (fun p => stopMediaStream p.2) ++
           [AcqEvent.rejectEv (RejectReason.parsed (parseError e [kf]))]) := by
  intro ks
  induction ks with
  | nil =>
    intro m _ _ _
    simp [obtainDevices, hfail]
  | cons a ks ih =>
    intro m hnd hnm hsucc
    have ha := hsucc a (by simp)
    have hstep : obtainDevices env o ((a :: ks) ++ kf :: rest) m =
        ev a :: obtainDevices env o (ks ++ kf :: rest) (insertStream m a (s a)) := by
      simp [obtainDevices, ha]
    have hins : insertStream m a (s a) = m ++ [(a, s a)] := by
      unfold insertStream
      rw [if_neg]
      simp [hnm a (by simp)]
    have hm2 : ∀ k ∈ ks, (m ++ [(a, s a)]).any (fun p => p.1 == k) = false := by
      intro k hk
      have h1 : m.any (fun p => p.1 == k) = false :=
        hnm k (List.mem_cons_of_mem _ hk)
      have hak : a ≠ k := by
        intro hcontra
        exact (List.nodup_cons.mp hnd).1 (hcontra ▸ hk)
      simp [List.any_append, h1, hak]
    have hs2 : ∀ k ∈ ks, obtainStep env o k = some (ev k, Except.ok (s k)) :=
      fun k hk => hsucc k (List.mem_cons_of_mem _ hk)
    rw [hstep, hins, ih (m ++ [(a, s a)]) (List.nodup_cons.mp hnd).2 hm2 hs2]
    simp

/-- Claim C1: in the sequential strategy, when every kind in `ks` succeeds
and the next kind `kf` fails, the orchestrator attempts no kind after `kf`,
releases every stream of the success map before the rejection event, and
rejects with a classified error naming `kf` and carrying the backend
cause. -/
theorem obtainDevices_partialFailure_rollback (env : Env) (o : Options)
    (ks : List Kind) (kf : Kind) (rest : List Kind)
    (ev : Kind → AcqEvent) (s : Kind → MediaStream) (e : Cause)
    (hnd : ks.Nodup)
    (hsucc : ∀ k ∈ ks, obtainStep env o k = some (ev k, Except.ok (s k)))
    (hfail : obtainStep env o kf = some (ev kf, Except.error e)) :
    obtainDevices env o (ks ++ kf :: rest) [] =
      ks.map ev ++ ev kf ::
        (ks.map (fun k => stopMediaStream (s k)) ++
         [AcqEvent.rejectEv (RejectReason.parsed (parseError e [kf]))]) := by
  have h := obtainDevices_rollback_aux env o kf rest ev s e hfail ks []
    hnd (by simp) hsucc
  simpa [List.map_map, Function.comp] using h

/-- Witness for C1: requesting `[audio, video, desktop]` where audio and
video succeed and desktop fails produces exactly the trace that calls the
three primitives in order, releases both acquired streams, and then
rejects naming desktop with the backend cause. -/
theorem obtainDevices_partialFailure_rollback_witness :
    obtainDevices seqEnv {} [Kind.audio, Kind.video, Kind.desktop] [] =
      [AcqEvent.gumCall [Kind.audio] true, AcqEvent.gumCall [Kind.video] true,
       AcqEvent.screenCall, AcqEvent.release audioOnlyStream,
       AcqEvent.release videoOnlyStream,
       AcqEvent.rejectEv (RejectReason.parsed
         (parseError (Cause.backend 7) [Kind.desktop]))] := by
  have h := obtainDevices_partialFailure_rollback seqEnv {} [Kind.audio, Kind.video]
    Kind.desktop [] seqEv seqStream (Cause.backend 7) (by decide)
    (by
      intro k hk
      fin_cases hk <;> rfl)
    rfl
  simpa [seqEv, seqStream, stopMediaStream] using h

/-! ### C2: desktop-unsupported fast-fail is broken by a missing return -/

/-- Claim C2 (code bug): requesting desktop against a backend without
desktop support does reject with the desktop-unsupported error, but — the
`reject` is not followed by a `return` — the body keeps running and still
issues backend capture calls (here a `getUserMedia` call for audio and a
screen-obtainer call), contradicting the required fail-fast with zero
backend calls. -/
theorem desktopUnsupported_rejects_but_still_calls_backend :
    settleOf (obtainAudioAndVideoPermissions desktopUnsupportedEnv
        { devices := some [Kind.desktop, Kind.audio] }) =
      some (Settle.rejected (RejectReason.plain "Desktop sharing is not supported!")) ∧
    backendCalls (obtainAudioAndVideoPermissions desktopUnsupportedEnv
        { devices := some [Kind.desktop, Kind.audio] }) =
      [AcqEvent.gumCall [Kind.audio] true, AcqEvent.screenCall] :=
  ⟨rfl, rfl⟩

/-! ### C3: the empty requested-kind list -/

/-- Counterexample for C3: on the combined-capable (Chrome) path an
explicitly empty kind list settles neither branch of the entry point — the
promise never resolves nor rejects, so the claim that it resolves on both
backend paths fails. -/
theorem emptyDevices_combinedPath_pending_cex :
    obtainAudioAndVideoPermissions emptyChromeEnv { devices := some [] } = [] ∧
    settleOf (obtainAudioAndVideoPermissions emptyChromeEnv
      { devices := some [] }) = none :=
  ⟨rfl, rfl⟩

/-- Claim C3 (amended): an explicitly empty kind list makes no backend
calls and leaves the availability tracker unchanged on both paths; on the
per-device path it resolves with the empty descriptor sequence, but on the
combined-capable path the promise never settles. -/
theorem emptyDevices_amended (env : Env) (o : Options) (d : Availability)
    (h : o.devices = some []) :
    backendCalls (obtainAudioAndVideoPermissions env o) = [] ∧
    finalAvail d (obtainAudioAndVideoPermissions env o) = d ∧
    ((env.browser.isFirefox || env.browser.isReactNative
        || env.browser.isTemasysPluginUsed) = true →
      obtainAudioAndVideoPermissions env o = [AcqEvent.resolveEv []] ∧
      settleOf (obtainAudioAndVideoPermissions env o) = some (Settle.resolved [])) ∧
    ((env.browser.isFirefox || env.browser.isReactNative
        || env.browser.isTemasysPluginUsed) = false →
      obtainAudioAndVideoPermissions env o = [] ∧
      settleOf (obtainAudioAndVideoPermissions env o) = none) := by
  have htr : obtainAudioAndVideoPermissions env o =
      if (env.browser.isFirefox || env.browser.isReactNative
          || env.browser.isTemasysPluginUsed) = true
      then [AcqEvent.resolveEv []] else [] := by
    unfold obtainAudioAndVideoPermissions
    rw [h]
    by_cases hbr : (env.browser.isFirefox || env.browser.isReactNative
        || env.browser.isTemasysPluginUsed) = true
    · simp [hbr, obtainDevices, bundleOfStreams, handleLocalStream]
    · simp [hbr]
  refine ⟨?_, ?_, ?_, ?_⟩
  · rw [htr]
    split <;> simp [backendCalls, isBackendCall]
  · rw [htr]
    split <;> simp [finalAvail]
  · intro hbr
    rw [htr, if_pos hbr]
    exact ⟨rfl, rfl⟩
  · intro hbr
    rw [htr, if_neg (by simp [hbr])]
    exact ⟨rfl, rfl⟩

/-- Witness for C3: on the Firefox per-device path an empty kind list
resolves with the empty sequence, makes no backend calls and leaves the
availability snapshot unchanged. -/
theorem emptyDevices_amended_witness :
    obtainAudioAndVideoPermissions emptyFirefoxEnv { devices := some [] } =
      [AcqEvent.resolveEv []] ∧
    backendCalls (obtainAudioAndVideoPermissions emptyFirefoxEnv
      { devices := some [] }) = [] ∧
    finalAvail { audio := true, video := true }
      (obtainAudioAndVideoPermissions emptyFirefoxEnv { devices := some [] }) =
      { audio := true, video := true } :=
  ⟨((emptyDevices_amended emptyFirefoxEnv { devices := some [] }
      { audio := true, video := true } rfl).2.2.1 rfl).1,
   (emptyDevices_amended emptyFirefoxEnv { devices := some [] }
      { audio := true, video := true } rfl).1,
   (emptyDevices_amended emptyFirefoxEnv { devices := some [] }
      { audio := true, video := true } rfl).2.1⟩

/-- Witness for C6: with kinds `[video]`, a failed attempt flips the
snapshot to unavailable and a later successful attempt flips it back. -/
theorem setAvailableDevices_amended_witness :
    (setAvailableDevices [Kind.video] false { audio := true, video := true }).1.video = false ∧
    (setAvailableDevices [Kind.video] true { audio := true, video := false }).1.video = true :=
  ⟨((setAvailableDevices_amended [Kind.video] false
      { audio := true, video := true }).2.2.2 rfl).1,
   ((setAvailableDevices_amended [Kind.video] false
      { audio := true, video := true }).2.2.2 rfl).2
     { audio := true, video := false }⟩
